import Mathlib

/-!
Shallow embedding of the xlog logging library (Go) for specification checking.

Modelling conventions:
* Go `Level` (an `int`) is embedded as `Int`; the eight canonical level
  constants are the powers of two `1 <<< i` exactly as in `loggable.go`.
* A Go function that can `panic` is embedded as an `Option`-returning
  function, `none` standing for the panic.
* Go map lookups that miss return the zero value of the element type; the
  display-name map `Levels` is embedded as a total function returning `""`
  on a miss, matching Go semantics.
* `strings.Replace(s, old, new, -1)` is embedded as `goReplace`, a
  left-to-right non-overlapping replace-all over the character list.
-/

namespace Xlog

/-- Go: `type Level int`. -/
abbrev Level := Int

def DebugLevel : Level := 1
def InfoLevel : Level := 2
def NoticeLevel : Level := 4
def WarningLevel : Level := 8
def ErrorLevel : Level := 16
def CriticalLevel : Level := 32
def AlertLevel : Level := 64
def EmergencyLevel : Level := 128

/-- Go: `levelOrder` — the canonical order of the levels (loggable.go). -/
def levelOrder : List Level :=
  [DebugLevel, InfoLevel, NoticeLevel, WarningLevel,
   ErrorLevel, CriticalLevel, AlertLevel, EmergencyLevel]

/-- Loop body of `searchForLevel`: walk the order list carrying the index. -/
def searchForLevelAux (level : Level) : List Level → Nat → Option Nat
  | [], _ => none
  | v :: rest, idx => if v = level then some idx else searchForLevelAux level rest (idx + 1)

/-- Go: `searchForLevel` (loggable.go) — returns the index of the level in
`levelOrder`; the Go code panics when the level is absent, which is
embedded as `none`. -/
def searchForLevel (level : Level) : Option Nat :=
  searchForLevelAux level levelOrder 0

/-- Go: `IsGreaterLevel` (loggable.go); `none` models the panic raised by
`searchForLevel` on a non-canonical argument. -/
def IsGreaterLevel (is_greater_than that : Level) : Option Bool :=
  match searchForLevel is_greater_than, searchForLevel that with
  | some x, some y => some (decide (x > y))
  | _, _ => none

/-- Go: `IsLesserLevel` (loggable.go). -/
def IsLesserLevel (is_less_than that : Level) : Option Bool :=
  match searchForLevel is_less_than, searchForLevel that with
  | some x, some y => some (decide (x < y))
  | _, _ => none

/-- Go: the `Levels` map (loggable.go) as a total lookup; a missing key
yields the zero value `""` exactly as a Go map read does. -/
def LevelsLookup (l : Level) : String :=
  if l = DebugLevel then "DEBUG"
  else if l = InfoLevel then "INFO"
  else if l = NoticeLevel then "NOTICE"
  else if l = WarningLevel then "WARNING"
  else if l = ErrorLevel then "ERROR"
  else if l = CriticalLevel then "CRITICAL"
  else if l = AlertLevel then "ALERT"
  else if l = EmergencyLevel then "EMERGENCY"
  else ""

/-- Go: `DefaultDateFormat` (loggable.go). -/
def DefaultDateFormat : String := "2006-01-02 15:04:05.000"

/-- Go: `DefaultMessageFormat` (loggable.go). -/
def DefaultMessageFormat : String := "{date|2006-01-02 15:04:05.000} {name}.{level} {message}"

/-- Go: `strings.Replace(s, old, new, -1)` on character lists — left-to-right,
non-overlapping, replace all occurrences. The Go special case for an empty
`old` never arises in this code base (all patterns contain braces); for an
empty pattern this model returns the input unchanged. -/
def replaceListAux (pat rep : List Char) : Nat → List Char → List Char
  | _, [] => []
  | 0, s => s
  | fuel + 1, c :: rest =>
    if pat ≠ [] ∧ pat.isPrefixOf (c :: rest) then
      rep ++ replaceListAux pat rep fuel ((c :: rest).drop pat.length)
    else
      c :: replaceListAux pat rep fuel rest

/-- Replace-all over a character list. The fuel `s.length` bounds the number
of loop steps; every step consumes at least one character, so the fuel is
never exhausted and the `0, s` row of `replaceListAux` is unreachable. -/
def replaceList (pat rep s : List Char) : List Char :=
  replaceListAux pat rep s.length s

/-- Go: `strings.Replace(s, old, new, -1)` on strings. -/
def goReplace (s old rep : String) : String :=
  ⟨replaceList old.data rep.data s.data⟩

/-- One combined pass of the Go regexp `{date\|([^}]+)}` over a character
list: the first component is `ReplaceAllString(s, "{date}")`, the second is
the capture group of `FindStringSubmatch` (the first match), or `none` when
there is no match. A match at a position is the literal prefix
`LEFTBRACE date BAR`, then a maximal nonempty run of characters other than
`RIGHTBRACE`, then `RIGHTBRACE` — exactly the leftmost greedy semantics of
the Go pattern. -/
def dateSpecScanAux : Nat → List Char → List Char × Option (List Char)
  | _, [] => ([], none)
  | 0, s => (s, none)
  | fuel + 1, c :: rest =>
    let t := (c :: rest).drop 6
    let cap := t.takeWhile (fun ch => ch ≠ '}')
    if ("\x7bdate|".data).isPrefixOf (c :: rest) ∧ cap ≠ [] ∧ cap.length < t.length then
      let r := dateSpecScanAux fuel (t.drop (cap.length + 1))
      ("{date}".data ++ r.1, some cap)
    else
      let r := dateSpecScanAux fuel rest
      (c :: r.1, r.2)

/-- The scan over a whole character list. The fuel `s.length` bounds the
number of loop steps; a match consumes at least seven characters and a
shift consumes one, so the fuel is never exhausted and the `0, s` row of
`dateSpecScanAux` is unreachable. -/
def dateSpecScan (s : List Char) : List Char × Option (List Char) :=
  dateSpecScanAux s.length s

namespace FormatterA

/-- Go: `SanitizeForDate` from src/formatter.go (one-argument revision).
When no inline date spec is present the returned date format is the
package default, not a previously stored one. -/
def SanitizeForDate (messageFormat : String) : String × String :=
  match dateSpecScan messageFormat.data with
  | (r, some cap) => (⟨r⟩, ⟨cap⟩)
  | (_, none) => (messageFormat, DefaultDateFormat)

/-- Go: `DefaultFormatter` from src/formatter.go. -/
structure DefaultFormatter where
  messageFormat : String
  dateFormat : String

/-- Go: `NewDefaultFormatter` from src/formatter.go. -/
def NewDefaultFormatter (messageFormat : String) : DefaultFormatter :=
  let p := SanitizeForDate messageFormat
  ⟨p.1, p.2⟩

/-- Go: `DefaultFormatter.SetMessageFormat` from src/formatter.go. -/
def DefaultFormatter.SetMessageFormat (f : DefaultFormatter) (messageFormat : String) :
    DefaultFormatter :=
  let p := SanitizeForDate messageFormat
  { f with messageFormat := p.1, dateFormat := p.2 }

/-- Go: `DefaultFormatter.Format` from src/formatter.go. `clock` is the
oracle for `time.Now().Format` (layout string to rendered date); `message`
stands for `fmt.Sprint(v...)`. Go iterates the placeholder map in an
unspecified order; the model substitutes in the order of the map literal. -/
def DefaultFormatter.Format (f : DefaultFormatter) (clock : String → String)
    (name : String) (level : Level) (message : String) : String :=
  let s := goReplace f.messageFormat "{date}" (clock f.dateFormat)
  let s := goReplace s "{level}" (LevelsLookup level)
  let s := goReplace s "{message}" message
  goReplace s "{name}" name

end FormatterA

namespace FormatterB

/-- Go: `SanitizeForDate` from the src/map.go revision (two arguments).
When no inline date spec is present the given `dateFormat` is returned
unchanged. -/
def SanitizeForDate (messageFormat dateFormat : String) : String × String :=
  match dateSpecScan messageFormat.data with
  | (r, some cap) => (⟨r⟩, ⟨cap⟩)
  | (_, none) => (messageFormat, dateFormat)

/-- A supplier registered for a custom placeholder. -/
abbrev Supplier := String → String

/-- Go: `DefaultFormatter` from the src/map.go revision; the Go
`map[string]func(string) string` of custom placeholders is modelled as an
association list in registration order. -/
structure DefaultFormatter where
  messageFormat : String
  dateFormat : String
  funcs : List (String × Supplier)

/-- Go: `NewDefaultFormatter` from the src/map.go revision. -/
def NewDefaultFormatter (messageFormat dateFormat : String) : DefaultFormatter :=
  let p := SanitizeForDate messageFormat dateFormat
  ⟨p.1, p.2, []⟩

/-- Go: `DefaultFormatter.SetFormat` from the src/map.go revision. -/
def DefaultFormatter.SetFormat (f : DefaultFormatter) (format : String) : DefaultFormatter :=
  let p := SanitizeForDate format f.dateFormat
  { f with messageFormat := p.1, dateFormat := p.2 }

/-- Go map assignment `f.funcs[key] = fn` on the association-list model:
replace the binding when the key is present, append it otherwise. -/
def mapUpdate (l : List (String × Supplier)) (key : String) (fn : Supplier) :
    List (String × Supplier) :=
  if l.any (fun p => p.1 = key) then
    l.map (fun p => if p.1 = key then (key, fn) else p)
  else
    l ++ [(key, fn)]

/-- Go: `DefaultFormatter.PlaceholderFunc` from the src/map.go revision. -/
def DefaultFormatter.PlaceholderFunc (f : DefaultFormatter) (key : String) (fn : Supplier) :
    DefaultFormatter :=
  { f with funcs := mapUpdate f.funcs key fn }

/-- Go: `DefaultFormatter.Format` from the src/map.go revision: the four
built-in placeholders are substituted, then every custom placeholder is
substituted by invoking its supplier with its key. `clock` is the oracle
for `time.Now().Format`; `message` stands for `fmt.Sprint(v...)`. Go
iterates both maps in an unspecified order; the model uses the literal's
order for the built-ins and registration order for the custom suppliers. -/
def DefaultFormatter.Format (f : DefaultFormatter) (clock : String → String)
    (name : String) (level : Level) (message : String) : String :=
  let s := goReplace f.messageFormat "{date}" (clock f.dateFormat)
  let s := goReplace s "{level}" (LevelsLookup level)
  let s := goReplace s "{message}" message
  let s := goReplace s "{name}" name
  f.funcs.foldl (fun acc p => goReplace acc ("\x7b" ++ p.1 ++ "\x7d") (p.2 p.1)) s

end FormatterB

/-- Go: `DefaultLoggerMap` (src/map.go) — `map[Level][]*log.Logger`,
embedded as a total function from level to bucket. `NewDefaultLoggerMap`
creates one empty bucket per key of `Levels` and a Go map read of a
missing key yields nil; both are the empty list here. `σ` is the type of
sink identities standing for `*log.Logger` values. -/
structure DefaultLoggerMap (σ : Type) where
  loggers : Level → List σ

/-- Go: `NewDefaultLoggerMap` (src/map.go). -/
def NewDefaultLoggerMap (σ : Type) : DefaultLoggerMap σ :=
  ⟨fun _ => []⟩

/-- Go: `DefaultLoggerMap.Append` (src/map.go) — the raw numeric comparison
`lev >= level` over the map's keys, which are exactly the eight canonical
levels. -/
def DefaultLoggerMap.Append {σ : Type} (m : DefaultLoggerMap σ) (logger : σ) (level : Level) :
    DefaultLoggerMap σ :=
  ⟨fun lev =>
    if lev ∈ levelOrder ∧ lev ≥ level then m.loggers lev ++ [logger] else m.loggers lev⟩

/-- Go: `DefaultLoggerMap.FindByLevel` (src/map.go) — a plain map read. -/
def DefaultLoggerMap.FindByLevel {σ : Type} (m : DefaultLoggerMap σ) (level : Level) : List σ :=
  m.loggers level

/-- Observable effects of one `Log` call, in order of occurrence:
writes to sinks, `os.Exit(1)`, and `panic(message)`. -/
inductive LogEvent (σ : Type) where
  | write (sink : σ) (message : String)
  | exitProcess (code : Nat)
  | panicked (message : String)
  deriving DecidableEq

/-- Go: `Logger` (src/logger.go). The `Formatter` interface value is
embedded as the function `level, renderedArgs ↦ Format(level, v...)`; the
`pointers` field is irrelevant to `Log` and omitted here (it is modelled
in `DefaultLogger` below, where `Close` uses it). -/
structure Logger (σ : Type) where
  Enabled : Bool
  Formatter : Level → String → String
  Loggers : DefaultLoggerMap σ
  closed : Bool

/-- Go: `Logger.Writable` (src/logger.go). -/
def Logger.Writable {σ : Type} (l : Logger σ) : Bool :=
  l.Enabled && !l.closed

/-- Go: `Logger.Log` (src/logger.go, lines 227-242), as the ordered list of
its observable effects. `fatalOn` and `panicOn` are the package-level
variables `FatalOn` and `PanicOn`; `args` stands for the variadic `v...`
already joined by `fmt.Sprint`. -/
def Logger.Log {σ : Type} (l : Logger σ) (fatalOn panicOn : Level) (level : Level)
    (args : String) : List (LogEvent σ) :=
  if l.Writable then
    let message := l.Formatter level args
    (if message ≠ "" then
        (l.Loggers.FindByLevel level).map (fun s => LogEvent.write s message)
      else []) ++
      (if Int.land fatalOn level > 0 then [LogEvent.exitProcess 1]
       else if Int.land panicOn level > 0 then [LogEvent.panicked message]
       else [])
  else []

/-- Go: `DefaultLogger` (src/unnamed/part_004) — the fields touched by
`Close`/`Closed`. File handles in `pointers` are numbered; the `Formatter`
and name fields are untouched by `Close` and omitted. -/
structure DefaultLogger where
  Enabled : Bool
  Loggers : Option (DefaultLoggerMap Nat)
  pointers : List Nat
  closed : Bool

/-- Go: `DefaultLogger.Close` (src/unnamed/part_004, lines 89-104). The
second component lists the file handles whose `Close` was invoked by this
call — the resources released. -/
def DefaultLogger.Close (l : DefaultLogger) : DefaultLogger × List Nat :=
  if l.closed then (l, [])
  else
    ({ Enabled := false, Loggers := none, pointers := [], closed := true }, l.pointers)

/-- Go: `DefaultLogger.Closed` (src/unnamed/part_004). -/
def DefaultLogger.Closed (l : DefaultLogger) : Bool :=
  l.closed

/-- Spec §4.1 `AtOrAbove(candidate, threshold)`: the rank-lookup comparison
`Rank(candidate) >= Rank(threshold)`, `false` when either rank lookup would
panic. -/
def rankAtOrAbove (candidate threshold : Level) : Bool :=
  match searchForLevel candidate, searchForLevel threshold with
  | some x, some y => decide (x ≥ y)
  | _, _ => false

/-- Modelled from the spec (§4.3): the rank-lookup container insertion —
a sink registered at `threshold` goes into every canonical bucket whose
rank is at or above the rank of `threshold`. This is the specification
counterpart of `DefaultLoggerMap.Append`, which compares raw numeric
values instead. -/
def AppendByRank {σ : Type} (m : DefaultLoggerMap σ) (logger : σ) (level : Level) :
    DefaultLoggerMap σ :=
  ⟨fun lev =>
    if lev ∈ levelOrder ∧ rankAtOrAbove lev level = true then m.loggers lev ++ [logger]
    else m.loggers lev⟩

lemma searchForLevelAux_eq_none {l : Level} :
    ∀ (xs : List Level) (i : Nat), l ∉ xs → searchForLevelAux l xs i = none := by
  intro xs
  induction xs with
  | nil => intro i _; rfl
  | cons v rest ih =>
    intro i hmem
    have hv : v ≠ l := fun h => hmem (by simp [h])
    have hrest : l ∉ rest := fun h => hmem (List.mem_cons_of_mem v h)
    simp [searchForLevelAux, hv, ih _ hrest]

lemma searchForLevel_eq_none {l : Level} (h : l ∉ levelOrder) : searchForLevel l = none :=
  searchForLevelAux_eq_none levelOrder 0 h

lemma numeric_rank_agree :
    ∀ a ∈ levelOrder, ∀ b ∈ levelOrder, decide (a ≥ b) = rankAtOrAbove a b := by
  decide

/-- Claim C2: for every level and argument list, if the logger is not writable
(disabled or closed) then `Log` returns immediately as a pure no-op: its
observable trace is empty — zero writes to every registered sink, no error
surfaced, and no fatal or panic escalation. -/
theorem log_not_writable_is_noop :
    ∀ (σ : Type) (l : Logger σ) (fatalOn panicOn level : Level) (args : String),
      l.Writable = false → l.Log fatalOn panicOn level args = [] := by
  intro σ l fatalOn panicOn level args h
  simp [Logger.Log, h]

/-- Witness for C2: a disabled logger with a registered behaviour produces
an empty trace at a concrete call. -/
theorem log_not_writable_is_noop_witness :
    (Logger.mk false (fun _ _ => "m") (NewDefaultLoggerMap Nat) false).Log 0 0 1 "x" = [] :=
  log_not_writable_is_noop Nat
    (Logger.mk false (fun _ _ => "m") (NewDefaultLoggerMap Nat) false) 0 0 1 "x" (by decide)

/-- Claim C5: calling `Close` twice on a `DefaultLogger` has the same observable
effect as calling it once — the second call releases no resources (empty
release list, hence no double-release fault) and leaves the state of the
first call unchanged, and `Closed` is true after the first call and after
every subsequent one. -/
theorem close_idempotent_closed_stays_true :
    ∀ l : DefaultLogger,
      l.Close.1.Closed = true ∧ l.Close.1.Close = (l.Close.1, []) := by
  intro l
  by_cases h : l.closed <;>
    simp [DefaultLogger.Close, DefaultLogger.Closed, h]

/-- Witness for C5: a concrete open logger holding one file pointer —
closing twice equals closing once and `Closed` stays true. -/
theorem close_idempotent_closed_stays_true_witness :
    (DefaultLogger.mk true (some (NewDefaultLoggerMap Nat)) [3] false).Close.1.Closed = true ∧
    (DefaultLogger.mk true (some (NewDefaultLoggerMap Nat)) [3] false).Close.1.Close =
      ((DefaultLogger.mk true (some (NewDefaultLoggerMap Nat)) [3] false).Close.1, []) :=
  close_idempotent_closed_stays_true
    (DefaultLogger.mk true (some (NewDefaultLoggerMap Nat)) [3] false)

/-- Claim C8: the rank lookup returns, for each of the eight canonical levels,
its position in the canonical order Debug < Info < Notice < Warning <
Error < Critical < Alert < Emergency; it fails (the Go panic, modelled by
`none`) for every `Level` value outside the canonical set; and the
greater / lesser comparisons are exactly comparisons of these ranks. -/
theorem rank_lookup_positions_panic_and_comparisons :
    (searchForLevel DebugLevel = some 0 ∧ searchForLevel InfoLevel = some 1 ∧
     searchForLevel NoticeLevel = some 2 ∧ searchForLevel WarningLevel = some 3 ∧
     searchForLevel ErrorLevel = some 4 ∧ searchForLevel CriticalLevel = some 5 ∧
     searchForLevel AlertLevel = some 6 ∧ searchForLevel EmergencyLevel = some 7) ∧
    (∀ l : Level, l ∉ levelOrder → searchForLevel l = none) ∧
    (∀ a b : Level, ∀ ra rb : Nat, searchForLevel a = some ra → searchForLevel b = some rb →
      IsGreaterLevel a b = some (decide (ra > rb)) ∧
      IsLesserLevel a b = some (decide (ra < rb))) := by
  refine ⟨by decide, ?_, ?_⟩
  · exact fun l h => searchForLevel_eq_none h
  · intro a b ra rb ha hb
    constructor <;> simp [IsGreaterLevel, IsLesserLevel, ha, hb]

/-- Witness for C8: the non-canonical value 3 makes the rank lookup fail,
and a concrete comparison is the comparison of the concrete ranks. -/
theorem rank_lookup_positions_panic_and_comparisons_witness :
    searchForLevel 3 = none ∧ IsGreaterLevel ErrorLevel InfoLevel = some true := by
  constructor
  · exact rank_lookup_positions_panic_and_comparisons.2.1 3 (by decide)
  · exact (rank_lookup_positions_panic_and_comparisons.2.2 ErrorLevel InfoLevel 4 1
      (by decide) (by decide)).1

/-- Claim C1: for all eight canonical levels `L`, after appending a sink to an
enabled, open logger at threshold `L`, a `Log` call at any canonical level
ranked at or above `L` delivers the rendered message to that sink, and a
`Log` call at any canonical level ranked below `L` delivers nothing to
that sink. -/
theorem append_threshold_routing :
    ∀ (σ : Type) (s : σ) (F : Level → String → String) (fatalOn panicOn L X : Level)
      (args : String),
      L ∈ levelOrder → X ∈ levelOrder → F X args ≠ "" →
      ((rankAtOrAbove X L = true →
          LogEvent.write s (F X args) ∈
            (Logger.mk true F ((NewDefaultLoggerMap σ).Append s L) false).Log
              fatalOn panicOn X args) ∧
       (rankAtOrAbove X L = false →
          ∀ msg, LogEvent.write s msg ∉
            (Logger.mk true F ((NewDefaultLoggerMap σ).Append s L) false).Log
              fatalOn panicOn X args)) := by
  intro σ s F fatalOn panicOn L X args hL hX hne
  have hnum : decide (X ≥ L) = rankAtOrAbove X L := numeric_rank_agree X hX L hL
  constructor
  · intro hr
    have hXL : X ≥ L := of_decide_eq_true (hnum.trans hr)
    simp only [Logger.Log, Logger.Writable, DefaultLoggerMap.FindByLevel,
      DefaultLoggerMap.Append, NewDefaultLoggerMap]
    simp [hX, hXL, hne]
  · intro hr msg
    have hXL : ¬ X ≥ L := by
      intro hge
      have ht : rankAtOrAbove X L = true := hnum ▸ decide_eq_true hge
      rw [hr] at ht
      exact Bool.false_ne_true ht
    simp only [Logger.Log, Logger.Writable, DefaultLoggerMap.FindByLevel,
      DefaultLoggerMap.Append, NewDefaultLoggerMap]
    simp only [hXL, and_false, if_false, Bool.and_self, Bool.not_false, if_true]
    split_ifs <;> simp

/-- Witness for C1: with threshold Warning, logging at Error delivers to
the sink and logging at Info delivers nothing to it. -/
theorem append_threshold_routing_witness :
    (LogEvent.write 7 "m" ∈
      (Logger.mk true (fun _ _ => "m") ((NewDefaultLoggerMap Nat).Append 7 WarningLevel)
          false).Log 0 0 ErrorLevel "x") ∧
    (LogEvent.write 7 "m" ∉
      (Logger.mk true (fun _ _ => "m") ((NewDefaultLoggerMap Nat).Append 7 WarningLevel)
          false).Log 0 0 InfoLevel "x") := by
  constructor
  · exact (append_threshold_routing Nat 7 (fun _ _ => "m") 0 0 WarningLevel ErrorLevel "x"
      (by decide) (by decide) (by decide)).1 (by decide)
  · exact (append_threshold_routing Nat 7 (fun _ _ => "m") 0 0 WarningLevel InfoLevel "x"
      (by decide) (by decide) (by decide)).2 (by decide) "m"

/-- Claim C9: over the canonical single-flag levels, the raw numeric comparison
used by `DefaultLoggerMap.Append` agrees with the rank comparison through
`searchForLevel`, so the numeric-comparison container routes identically
to a rank-lookup container. -/
theorem numeric_append_refines_rank_append :
    (∀ a ∈ levelOrder, ∀ b ∈ levelOrder, (a ≥ b ↔ rankAtOrAbove a b = true)) ∧
    (∀ (σ : Type) (m : DefaultLoggerMap σ) (lg : σ) (level : Level), level ∈ levelOrder →
      m.Append lg level = AppendByRank m lg level) := by
  have hagree : ∀ a ∈ levelOrder, ∀ b ∈ levelOrder, (a ≥ b ↔ rankAtOrAbove a b = true) := by
    intro a ha b hb
    rw [← numeric_rank_agree a ha b hb]
    exact decide_eq_true_iff.symm
  refine ⟨hagree, ?_⟩
  intro σ m lg level hlev
  simp only [DefaultLoggerMap.Append, AppendByRank]
  congr 1
  funext lev
  by_cases hmem : lev ∈ levelOrder
  · have hiff := hagree lev hmem level hlev
    simp [hmem, hiff]
  · simp [hmem]

/-- Witness for C9: on a concrete container and the concrete threshold
Warning, numeric-comparison insertion equals rank-lookup insertion. -/
theorem numeric_append_refines_rank_append_witness :
    (NewDefaultLoggerMap Nat).Append 0 WarningLevel
      = AppendByRank (NewDefaultLoggerMap Nat) 0 WarningLevel ∧
    (WarningLevel ≥ InfoLevel ↔ rankAtOrAbove WarningLevel InfoLevel = true) := by
  constructor
  · exact numeric_append_refines_rank_append.2 Nat (NewDefaultLoggerMap Nat) 0 WarningLevel
      (by decide)
  · exact numeric_append_refines_rank_append.1 WarningLevel (by decide) InfoLevel (by decide)

/-- Claim C3: for every writable logger and level, `Log` attempts message
delivery to all sinks for that level before any escalation: the trace is a
block of write events of the rendered message followed by the escalation
block, which is `os.Exit(1)` when the level intersects the fatal set —
taking precedence even when the level also intersects the panic set — else
a panic carrying the rendered message when the level intersects the panic
set, else nothing. -/
theorem log_delivery_before_escalation :
    ∀ (σ : Type) (l : Logger σ) (fatalOn panicOn level : Level) (args : String),
      l.Writable = true →
      ∃ writes : List (LogEvent σ),
        (∀ e ∈ writes, ∃ s, e = LogEvent.write s (l.Formatter level args)) ∧
        l.Log fatalOn panicOn level args =
          writes ++
            (if Int.land fatalOn level > 0 then [LogEvent.exitProcess 1]
             else if Int.land panicOn level > 0 then
               [LogEvent.panicked (l.Formatter level args)]
             else []) := by
  intro σ l fatalOn panicOn level args hw
  refine ⟨if l.Formatter level args ≠ "" then
      (l.Loggers.FindByLevel level).map (fun s => LogEvent.write s (l.Formatter level args))
    else [], ?_, ?_⟩
  · intro e he
    by_cases hne : l.Formatter level args ≠ ""
    · rw [if_pos hne] at he
      obtain ⟨s, _, hs⟩ := List.mem_map.mp he
      exact ⟨s, hs.symm⟩
    · rw [if_neg hne] at he
      exact absurd he (List.not_mem_nil e)
  · simp [Logger.Log, hw]

/-- Witness for C3: a concrete writable logger with both masks covering
Critical delivers first (no sinks here, so an empty write block) and then
exits rather than panics. -/
theorem log_delivery_before_escalation_witness :
    ∃ writes : List (LogEvent Nat),
      (∀ e ∈ writes, ∃ s, e = LogEvent.write s
        ((Logger.mk true (fun _ _ => "m") (NewDefaultLoggerMap Nat) false).Formatter 32 "x")) ∧
      (Logger.mk true (fun _ _ => "m") (NewDefaultLoggerMap Nat) false).Log 32 32 32 "x" =
        writes ++
          (if Int.land 32 32 > 0 then [LogEvent.exitProcess 1]
           else if Int.land 32 32 > 0 then
             [LogEvent.panicked
               ((Logger.mk true (fun _ _ => "m") (NewDefaultLoggerMap Nat) false).Formatter
                 32 "x")]
           else []) :=
  log_delivery_before_escalation Nat
    (Logger.mk true (fun _ _ => "m") (NewDefaultLoggerMap Nat) false) 32 32 32 "x" (by decide)

/-- Counterexample to C4 as stated: a writable logger whose formatter
renders the empty string is not escalation-free — with Critical in the
fatal set, a Critical `Log` call writes to no sink but still exits the
process, where the claim predicts no fatal exit. -/
theorem log_empty_message_escalation_counterexample :
    (Logger.mk true (fun _ _ => "") (NewDefaultLoggerMap Nat) false).Writable = true ∧
    (Logger.mk true (fun _ _ => "") (NewDefaultLoggerMap Nat) false).Formatter
      CriticalLevel "x" = "" ∧
    (Logger.mk true (fun _ _ => "") (NewDefaultLoggerMap Nat) false).Log
      CriticalLevel 0 CriticalLevel "x" = [LogEvent.exitProcess 1] := by
  decide

/-- Claim C4 amended: for every writable logger, a `Log` call whose formatter
renders the empty string writes to no sink and surfaces no error, but the
fatal / panic escalation still runs — the trace is exactly the escalation
block determined by the configured fatal and panic sets. -/
theorem log_empty_message_skips_writes_only :
    ∀ (σ : Type) (l : Logger σ) (fatalOn panicOn level : Level) (args : String),
      l.Writable = true → l.Formatter level args = "" →
      l.Log fatalOn panicOn level args =
        (if Int.land fatalOn level > 0 then [LogEvent.exitProcess 1]
         else if Int.land panicOn level > 0 then [LogEvent.panicked ""]
         else []) ∧
      (∀ s msg, LogEvent.write s msg ∉ l.Log fatalOn panicOn level args) := by
  intro σ l fatalOn panicOn level args hw hempty
  constructor
  · simp [Logger.Log, hw, hempty]
  · intro s msg
    simp only [Logger.Log, hw, hempty, if_true]
    split_ifs <;> simp_all

/-- Witness for C4 amended: a concrete writable logger rendering the empty
string at a panic-set level produces exactly the panic event and no write. -/
theorem log_empty_message_skips_writes_only_witness :
    (Logger.mk true (fun _ _ => "") (NewDefaultLoggerMap Nat) false).Log 0 32 32 "x" =
      (if Int.land 0 32 > 0 then [LogEvent.exitProcess 1]
       else if Int.land 32 32 > 0 then [LogEvent.panicked ""]
       else []) ∧
    (∀ s msg, LogEvent.write s msg ∉
      (Logger.mk true (fun _ _ => "") (NewDefaultLoggerMap Nat) false).Log 0 32 32 "x") :=
  log_empty_message_skips_writes_only Nat
    (Logger.mk true (fun _ _ => "") (NewDefaultLoggerMap Nat) false) 0 32 32 "x"
    (by decide) (by decide)

/-- Counterexample to C6 as stated: in the src/formatter.go revision,
setting a template with an inline date spec stores the format, but a
subsequent `SetMessageFormat` whose template has no inline date spec
resets the date format to `DefaultDateFormat` instead of retaining the
previously extracted one. -/
theorem set_template_date_format_reset_counterexample :
    (FormatterA.NewDefaultFormatter "{date|MMM D} {message}").dateFormat = "MMM D" ∧
    ((FormatterA.NewDefaultFormatter "{date|MMM D} {message}").SetMessageFormat
        "{message}").dateFormat = DefaultDateFormat ∧
    DefaultDateFormat ≠ "MMM D" := by
  decide

/-- Claim C6 amended: setting a template containing an inline date spec stores
the captured format and rewrites the template to the bare date
placeholder; on a subsequent template-set call whose template contains no
inline date spec, the `SetFormat` revision (src/map.go) retains the
previously stored date format, while the `SetMessageFormat` revision
(src/formatter.go) resets it to `DefaultDateFormat`. -/
theorem set_template_inline_date_extraction_and_retention :
    ((FormatterB.NewDefaultFormatter "{date|MMM D} {message}" DefaultDateFormat).messageFormat
        = "{date} {message}" ∧
     (FormatterB.NewDefaultFormatter "{date|MMM D} {message}" DefaultDateFormat).dateFormat
        = "MMM D") ∧
    (∀ (f : FormatterB.DefaultFormatter) (mf : String) (r cap : List Char),
      dateSpecScan mf.data = (r, some cap) →
      (f.SetFormat mf).dateFormat = ⟨cap⟩ ∧ (f.SetFormat mf).messageFormat = ⟨r⟩) ∧
    (∀ (f : FormatterB.DefaultFormatter) (mf : String),
      (dateSpecScan mf.data).2 = none →
      (f.SetFormat mf).dateFormat = f.dateFormat ∧ (f.SetFormat mf).messageFormat = mf) ∧
    (∀ (f : FormatterA.DefaultFormatter) (mf : String),
      (dateSpecScan mf.data).2 = none →
      (f.SetMessageFormat mf).dateFormat = DefaultDateFormat) := by
  refine ⟨by decide, ?_, ?_, ?_⟩
  · intro f mf r cap h
    constructor <;>
      simp [FormatterB.DefaultFormatter.SetFormat, FormatterB.SanitizeForDate, h]
  · intro f mf h
    rcases hscan : dateSpecScan mf.data with ⟨r, o⟩
    rw [hscan] at h
    simp only at h
    subst h
    constructor <;>
      simp [FormatterB.DefaultFormatter.SetFormat, FormatterB.SanitizeForDate, hscan]
  · intro f mf h
    rcases hscan : dateSpecScan mf.data with ⟨r, o⟩
    rw [hscan] at h
    simp only at h
    subst h
    simp [FormatterA.DefaultFormatter.SetMessageFormat, FormatterA.SanitizeForDate, hscan]

/-- Witness for C6 amended: a concrete `SetFormat` call with no inline
date spec keeps the previously extracted format MMM D. -/
theorem set_template_inline_date_retention_witness :
    ((FormatterB.NewDefaultFormatter "{date|MMM D} {message}" DefaultDateFormat).SetFormat
        "{message}").dateFormat
      = (FormatterB.NewDefaultFormatter "{date|MMM D} {message}" DefaultDateFormat).dateFormat :=
  (set_template_inline_date_extraction_and_retention.2.2.1
    (FormatterB.NewDefaultFormatter "{date|MMM D} {message}" DefaultDateFormat) "{message}"
    (by decide)).1

/-- Claim C7: registering the custom placeholder key host with a supplier
returning svc-1 makes `Format` of a template containing the host
placeholder yield output containing the literal svc-1 (here the exact
rendered line); a supplier is invoked with its own key at format time
(shown by a key-echoing supplier); and registering the same key again
replaces the previous supplier rather than adding a second entry. -/
theorem placeholder_func_registration_and_substitution :
    ∀ clock : String → String,
      ((FormatterB.NewDefaultFormatter "{level} {host} {message}" DefaultDateFormat
          ).PlaceholderFunc "host" (fun _ => "svc-1")).Format clock "testing" DebugLevel
          "This is a test." = "DEBUG svc-1 This is a test." ∧
      ((FormatterB.NewDefaultFormatter "{level} {host} {message}" DefaultDateFormat
          ).PlaceholderFunc "host" (fun key => key ++ "-key")).Format clock "testing"
          DebugLevel "This is a test." = "DEBUG host-key This is a test." ∧
      (((FormatterB.NewDefaultFormatter "{level} {host} {message}" DefaultDateFormat
          ).PlaceholderFunc "host" (fun _ => "old")).PlaceholderFunc "host"
          (fun _ => "svc-1")).funcs.length = 1 ∧
      (((FormatterB.NewDefaultFormatter "{level} {host} {message}" DefaultDateFormat
          ).PlaceholderFunc "host" (fun _ => "old")).PlaceholderFunc "host"
          (fun _ => "svc-1")).Format clock "testing" DebugLevel "This is a test."
        = "DEBUG svc-1 This is a test." := by
  intro clock
  exact ⟨rfl, rfl, rfl, rfl⟩

/-- Witness for C7: the substitution equalities at a concrete clock. -/
theorem placeholder_func_registration_and_substitution_witness :
    ((FormatterB.NewDefaultFormatter "{level} {host} {message}" DefaultDateFormat
        ).PlaceholderFunc "host" (fun _ => "svc-1")).Format (fun _ => "T") "testing"
        DebugLevel "This is a test." = "DEBUG svc-1 This is a test." ∧
    ((FormatterB.NewDefaultFormatter "{level} {host} {message}" DefaultDateFormat
        ).PlaceholderFunc "host" (fun key => key ++ "-key")).Format (fun _ => "T") "testing"
        DebugLevel "This is a test." = "DEBUG host-key This is a test." :=
  ⟨(placeholder_func_registration_and_substitution (fun _ => "T")).1,
   (placeholder_func_registration_and_substitution (fun _ => "T")).2.1⟩

/-- Claim C10: `DefaultFormatter.Format` is total over all `Level` values — for
a non-canonical level, where the rank lookup fails (panics), formatting
does not: the level placeholder is replaced by the empty string (the zero
value of the display-name map lookup) and every other placeholder is
substituted normally. -/
theorem format_total_on_noncanonical_levels :
    ∀ l : Level, l ∉ levelOrder →
      searchForLevel l = none ∧
      LevelsLookup l = "" ∧
      ∀ clock : String → String,
        FormatterB.DefaultFormatter.Format
          ⟨"{name}.{level} {message} {host}", DefaultDateFormat, [("host", fun _ => "H")]⟩
          clock "svc" l "hello" = "svc. hello H" := by
  intro l hl
  have hne : l ≠ DebugLevel ∧ l ≠ InfoLevel ∧ l ≠ NoticeLevel ∧ l ≠ WarningLevel ∧
      l ≠ ErrorLevel ∧ l ≠ CriticalLevel ∧ l ≠ AlertLevel ∧ l ≠ EmergencyLevel := by
    simp only [levelOrder, List.mem_cons, List.not_mem_nil, or_false] at hl
    push_neg at hl
    exact hl
  have hlevels : LevelsLookup l = "" := by
    obtain ⟨h1, h2, h3, h4, h5, h6, h7, h8⟩ := hne
    simp [LevelsLookup, h1, h2, h3, h4, h5, h6, h7, h8]
  refine ⟨searchForLevel_eq_none hl, hlevels, ?_⟩
  intro clock
  simp only [FormatterB.DefaultFormatter.Format, hlevels]
  rfl

/-- Witness for C10: the non-canonical level 3 formats normally while its
rank lookup fails. -/
theorem format_total_on_noncanonical_levels_witness :
    searchForLevel 3 = none ∧
    LevelsLookup 3 = "" ∧
    FormatterB.DefaultFormatter.Format
        ⟨"{name}.{level} {message} {host}", DefaultDateFormat, [("host", fun _ => "H")]⟩
        (fun _ => "T") "svc" 3 "hello" = "svc. hello H" := by
  have h := format_total_on_noncanonical_levels 3 (by decide)
  exact ⟨h.1, h.2.1, h.2.2 (fun _ => "T")⟩

end Xlog

-- Validation of the embedding on concrete inputs, including the
-- expectations of the repository's own formatter tests (src/unnamed/part_001).
example : Xlog.searchForLevel 32 = some 5 := by decide
example : Xlog.searchForLevel 3 = none := by decide
example : Xlog.IsGreaterLevel 16 2 = some true := by decide
example : Int.land 1 3 = 1 := by decide
example : Int.land 36 32 = 32 := by decide
example : ("ab".data : List Char) = ['a', 'b'] := by decide
example : Xlog.goReplace "a{x}b{x}" "{x}" "Z" = "aZbZ" := by decide
example : Xlog.FormatterA.SanitizeForDate "{date|MMM D} {message}" = ("{date} {message}", "MMM D") := by decide
example : Xlog.FormatterA.SanitizeForDate "{message}" = ("{message}", Xlog.DefaultDateFormat) := by decide
example : Xlog.FormatterB.SanitizeForDate "{message}" "X" = ("{message}", "X") := by decide
example : Xlog.FormatterB.SanitizeForDate "{date|} x" "X" = ("{date|} x", "X") := by decide
example : Xlog.FormatterB.SanitizeForDate "a{date|p}b{date|q}c" "X" = ("a{date}b{date}c", "p") := by decide
example :
    (Xlog.FormatterA.DefaultFormatter.Format ⟨"{level} {message}", "d"⟩
      (fun _ => "now") "n" Xlog.DebugLevel "This is a test.") = "DEBUG This is a test." := by
  decide
